import Mathlib

/-!
# Verification of the WireLog TypeScript client (browser delivery pipeline)

Shallow embedding of `src/client.ts` (the browser-capable variant of the
`WireLog` class).  Pure functions of the source become Lean functions;
the mutable fields of the class (`_queue`, `_retryCount`, timers, identity
fields) become explicit state records threaded through the functions.
Environment inputs that the source reads ad hoc (`Date.now()`, `hexId()`,
`crypto.randomUUID()`, `window.location`, the fetch response) are passed as
explicit arguments.  `localStorage` / `sessionStorage` are modelled as
key-value maps (`String → Option _`); the safe wrappers in the source never
throw, so storage operations are total functions here.

The model is single-threaded, matching the event-loop execution of the
source: a drain is an atomic sequence of steps consuming one HTTP response
per network attempt.
-/

set_option maxRecDepth 10000

namespace WireLogTS

/-! ## Constants (src/client.ts lines 147-166) -/

def SESSION_TIMEOUT : Nat := 30 * 60 * 1000
def BATCH_INTERVAL : Nat := 2000
def BATCH_MAX : Nat := 10
def QUEUE_MAX : Nat := 500
def RETRY_MAX : Nat := 3
def RETRY_BASE_MS : Nat := 1000

def ATTR_PARAMS : List String :=
  ["utm_source", "utm_medium", "utm_campaign", "utm_term", "utm_content", "gclid", "fbclid"]

def ATTR_FIRST_KEY : String := "wl_attr_first"
def ATTR_LAST_KEY : String := "wl_attr_last"
def ATTR_SYNC_USER_KEY : String := "wl_attr_sync_user"

/-! ## Delivery queue (`enqueueBrowserEvents`, src/client.ts lines 549-556)

`enqueueBrowserEvents` appends each event at the tail; when the queue is at
capacity it first drops the head (`this._queue.shift()`).  The function
reports nothing to the caller — eviction is silent by construction (the
source method returns `void`).  The queue element type is kept generic:
the source stores enriched `TrackEvent` records but the queue logic never
inspects them. -/

def enqueueBrowserEvents {α : Type} (queue : List α) (events : List α) : List α :=
  events.foldl (fun q e => (if QUEUE_MAX ≤ q.length then q.tail else q) ++ [e]) queue

/-- Key lemma: starting from any queue within capacity, enqueueing keeps
exactly the most recent `QUEUE_MAX` elements of the concatenated stream
(`Nat` subtraction makes the statement also cover the under-capacity case,
where nothing is dropped). -/
theorem enqueue_eq_drop {α : Type} (events : List α) :
    ∀ queue : List α, queue.length ≤ QUEUE_MAX →
      enqueueBrowserEvents queue events =
        (queue ++ events).drop ((queue ++ events).length - QUEUE_MAX) := by
  induction events with
  | nil =>
      intro q hq
      simp [enqueueBrowserEvents, Nat.sub_eq_zero_of_le hq]
  | cons e rest ih =>
      intro q hq
      rcases Nat.lt_or_ge q.length QUEUE_MAX with hlt | hge
      · -- below capacity: plain append
        have hstep : enqueueBrowserEvents q (e :: rest) =
            enqueueBrowserEvents (q ++ [e]) rest := by
          simp [enqueueBrowserEvents, Nat.not_le.mpr hlt]
        have hlen : (q ++ [e]).length ≤ QUEUE_MAX := by
          simp only [List.length_append, List.length_singleton]
          omega
        rw [hstep, ih _ hlen]
        simp [List.append_assoc]
      · -- at capacity: evict the head first
        have heq : q.length = QUEUE_MAX := Nat.le_antisymm hq hge
        rcases q with _ | ⟨hd, tl⟩
        · simp [QUEUE_MAX] at heq
        · have hcond : QUEUE_MAX ≤ tl.length + 1 := by
            simp only [List.length_cons] at heq
            omega
          have hstep : enqueueBrowserEvents (hd :: tl) (e :: rest) =
              enqueueBrowserEvents (tl ++ [e]) rest := by
            simp [enqueueBrowserEvents, hcond]
          have htl : tl.length + 1 = QUEUE_MAX := by
            simpa using heq
          have hlen : (tl ++ [e]).length ≤ QUEUE_MAX := by
            simp only [List.length_append, List.length_singleton]
            omega
          rw [hstep, ih _ hlen]
          have hshape : (hd :: tl) ++ e :: rest = hd :: (tl ++ e :: rest) := by
            simp
          rw [hshape]
          have hlen2 : (hd :: (tl ++ e :: rest)).length - QUEUE_MAX
              = ((tl ++ e :: rest).length - QUEUE_MAX) + 1 := by
            simp only [List.length_cons, List.length_append]
            omega
          rw [hlen2, List.drop_succ_cons]
          have : (tl ++ [e]) ++ rest = tl ++ e :: rest := by
            simp
          rw [this]

/-- C3: For every sequence of enqueue operations in a browser context, the
queue length never exceeds the fixed capacity of 500; when an enqueue occurs
at capacity, the head (oldest) event is evicted first, so after enqueueing
N > 500 events the queue holds exactly the most recent 500 in insertion
order (eviction is silent: `enqueueBrowserEvents` reports nothing back).
Stated for an arbitrary within-capacity starting queue; the final conjunct
is the N > 500 scenario from the empty queue. -/
theorem claim_C3_queue_eviction {α : Type} (queue events : List α)
    (h : queue.length ≤ QUEUE_MAX) :
    enqueueBrowserEvents queue events =
        (queue ++ events).drop ((queue ++ events).length - QUEUE_MAX)
    ∧ (enqueueBrowserEvents queue events).length ≤ QUEUE_MAX
    ∧ (QUEUE_MAX < events.length →
        enqueueBrowserEvents ([] : List α) events =
          events.drop (events.length - QUEUE_MAX)) := by
  refine ⟨enqueue_eq_drop events queue h, ?_, ?_⟩
  · rw [enqueue_eq_drop events queue h]
    simp only [List.length_drop]
    omega
  · intro _
    have := enqueue_eq_drop events ([] : List α) (by simp [QUEUE_MAX])
    simpa using this

/-- Witness for C3 at a concrete input: enqueue 501 events into an empty
queue of capacity 500; the head event `0` is evicted and the most recent
500 (`1..500`) remain in order. -/
theorem claim_C3_queue_eviction_witness :
    enqueueBrowserEvents ([] : List Nat) (List.range 501) =
        (([] : List Nat) ++ List.range 501).drop
          ((([] : List Nat) ++ List.range 501).length - QUEUE_MAX)
    ∧ (enqueueBrowserEvents ([] : List Nat) (List.range 501)).length ≤ QUEUE_MAX
    ∧ (QUEUE_MAX < (List.range 501).length →
        enqueueBrowserEvents ([] : List Nat) (List.range 501) =
          (List.range 501).drop ((List.range 501).length - QUEUE_MAX)) :=
  claim_C3_queue_eviction ([] : List Nat) (List.range 501) (by simp [QUEUE_MAX])

/-! ## Delivery transport (src/client.ts lines 657-698, 784-814)

An HTTP interaction is modelled by the response the environment produces
for one `fetch` call: a 2xx response whose parsed JSON body is `β`, a
non-2xx response with its status and raw text body (which `post` turns
into a thrown `WireLogError`), or a transport-level rejection of `fetch`
itself (network unreachable; not a `WireLogError`). -/

inductive HttpResp (β : Type) where
  | ok (body : β)
  | err (status : Nat) (body : String)
  | netfail
deriving Repr, DecidableEq

/-- `WireLogError` (src/client.ts lines 348-356): typed error carrying the
HTTP status and the raw response body. -/
structure WireLogErrorS where
  status : Nat
  body : String
deriving Repr, DecidableEq

/-- What a rejected `post` promise carries: a `WireLogError` for a non-2xx
response, or the underlying fetch rejection for a network-level failure. -/
inductive PostFailure where
  | api (e : WireLogErrorS)
  | network
deriving Repr, DecidableEq

/-- `post` (src/client.ts lines 784-814).  When the client is not
initialized it warns and resolves with `{}` — modelled by the endpoint's
lenient parse of an empty object, supplied as `dflt`.  Otherwise the given
response either parses to the body or throws `WireLogError(status, text)`. -/
def post {β : Type} (initialized : Bool) (dflt : β) (resp : HttpResp β) :
    Except PostFailure β :=
  if !initialized then .ok dflt
  else
    match resp with
    | .ok body => .ok body
    | .err status text => .error (.api ⟨status, text⟩)
    | .netfail => .error .network

/-- `isRetryableStatus` (src/client.ts lines 688-690). -/
def isRetryableStatus (status : Nat) : Bool :=
  status == 429 || (500 ≤ status && status < 600) || status == 0

/-- `acceptedFromTrackResponse` (src/client.ts lines 692-698): the
`accepted` field of the response body when it is a finite number,
otherwise the batch size. -/
def acceptedFromTrackResponse (result : Option Nat) (fallback : Nat) : Nat :=
  result.getD fallback

/-- Result of one `sendTrackBatch` network attempt. -/
structure SendOutcome where
  ok : Bool
  retryable : Bool
  accepted : Nat
deriving Repr, DecidableEq

/-- `sendTrackBatch` (src/client.ts lines 657-686).  The `try/catch`
classifies every failure: a `WireLogError` is retryable iff
`isRetryableStatus`, any other rejection (network failure) is retryable.
The response body of the track endpoint is the optional `accepted` count.
(The `reason` argument of the source only selects `keepalive` on the fetch
call, which has no observable effect in this model.) -/
def sendTrackBatch {α : Type} (events : List α) (resp : HttpResp (Option Nat)) :
    SendOutcome :=
  match post true none resp with
  | .ok result => ⟨true, false, acceptedFromTrackResponse result events.length⟩
  | .error (.api e) => ⟨false, isRetryableStatus e.status, 0⟩
  | .error .network => ⟨false, true, 0⟩

/-- Observable result of one whole drain: the accumulated accepted count,
the queue and shared retry counter left behind, the list of network calls
issued (each call is the batch it carried, in order), and whether the
drain ended by arming the retry-backoff timer. -/
structure DrainResult (α : Type) where
  accepted : Nat
  queue : List α
  retryCount : Nat
  calls : List (List α)
  retryScheduled : Bool
deriving Repr, DecidableEq

/-- The `while` loop of `drainQueuedEvents` (src/client.ts lines 624-652).
One environment response is consumed per network attempt; the recursion is
on the response list (an exhausted list means the environment is not
observed further and the loop state is returned as is).  Per iteration:
split off a head batch of up to `BATCH_MAX` events; on success reset the
retry counter and keep draining; on a non-retryable failure drop the batch,
reset the counter and keep draining; on a retryable failure re-insert the
batch at the head and bump the counter — past `RETRY_MAX` the batch is
dropped again (`splice(0, batch.length)`) and the counter reset, otherwise
the loop breaks after arming the retry timer (`scheduleRetry`, which fires
since the queue is non-empty). -/
def drainLoop {α : Type} (responses : List (HttpResp (Option Nat)))
    (queue : List α) (retryCount : Nat) : DrainResult α :=
  match queue, responses with
  | [], _ => ⟨0, [], retryCount, [], false⟩
  | q, [] => ⟨0, q, retryCount, [], false⟩
  | q@(_ :: _), o :: rest =>
      let batch := q.take BATCH_MAX
      let remaining := q.drop BATCH_MAX
      let outcome := sendTrackBatch batch o
      if outcome.ok then
        let r := drainLoop rest remaining 0
        ⟨outcome.accepted + r.accepted, r.queue, r.retryCount, batch :: r.calls,
          r.retryScheduled⟩
      else if !outcome.retryable then
        let r := drainLoop rest remaining 0
        ⟨r.accepted, r.queue, r.retryCount, batch :: r.calls, r.retryScheduled⟩
      else
        let requeued := batch ++ remaining
        let rc := retryCount + 1
        if RETRY_MAX < rc then
          let r := drainLoop rest (requeued.drop batch.length) 0
          ⟨r.accepted, r.queue, r.retryCount, batch :: r.calls, r.retryScheduled⟩
        else
          ⟨0, requeued, rc, [batch], true⟩

/-- With no responses left the loop state is returned unchanged (queue kept,
counter kept, no calls). -/
theorem drainLoop_nil_responses {α : Type} (q : List α) (rc : Nat) :
    drainLoop [] q rc = ⟨0, q, rc, [], false⟩ := by
  cases q <;> rfl

/-- One non-retryable failure: the head batch is sent once, dropped, the
retry counter resets to zero, the rest of the queue remains to be drained,
and no retry is scheduled. -/
theorem drainLoop_nonretryable {α : Type} (q : List α) (hq : q ≠ [])
    (s : Nat) (hs : isRetryableStatus s = false) (b : String) (rc : Nat) :
    drainLoop [.err s b] q rc =
      ⟨0, q.drop BATCH_MAX, 0, [q.take BATCH_MAX], false⟩ := by
  rcases q with _ | ⟨hd, tl⟩
  · exact absurd rfl hq
  · simp [drainLoop, sendTrackBatch, post, hs, drainLoop_nil_responses]

/-- One retryable failure while the counter is still below the maximum:
the batch (the whole queue when it fits in one batch) is sent once, put
back at the head, the counter is bumped, and the retry timer is armed. -/
theorem drainLoop_retryable_requeue {α : Type} (q : List α) (hq : q ≠ [])
    (hlen : q.length ≤ BATCH_MAX) (s : Nat) (hs : isRetryableStatus s = true)
    (b : String) (rc : Nat) (hrc : rc < RETRY_MAX) :
    drainLoop [.err s b] q rc = ⟨0, q, rc + 1, [q], true⟩ := by
  rcases q with _ | ⟨hd, tl⟩
  · exact absurd rfl hq
  · have htake : (hd :: tl).take BATCH_MAX = hd :: tl := List.take_of_length_le hlen
    have hdrop : (hd :: tl).drop BATCH_MAX = [] := List.drop_eq_nil_of_le hlen
    have hcond : ¬ RETRY_MAX < rc + 1 := by omega
    simp [drainLoop, sendTrackBatch, post, hs, htake, hdrop, hcond]

/-- A retryable failure when the counter is already at the maximum: the
batch is sent one final time, removed permanently, and the counter resets
to zero; the drain continues with the (empty) rest of the queue. -/
theorem drainLoop_retryable_drop {α : Type} (q : List α) (hq : q ≠ [])
    (hlen : q.length ≤ BATCH_MAX) (s : Nat) (hs : isRetryableStatus s = true)
    (b : String) :
    drainLoop [.err s b] q RETRY_MAX = ⟨0, [], 0, [q], false⟩ := by
  rcases q with _ | ⟨hd, tl⟩
  · exact absurd rfl hq
  · have htake : (hd :: tl).take BATCH_MAX = hd :: tl := List.take_of_length_le hlen
    have hdrop : (hd :: tl).drop BATCH_MAX = [] := List.drop_eq_nil_of_le hlen
    have hcond : RETRY_MAX < RETRY_MAX + 1 := by omega
    simp [drainLoop, sendTrackBatch, post, hs, htake, hdrop, hcond,
      drainLoop_nil_responses, List.drop_length]

/-- C2: starting with the shared retry counter at zero, if every delivery
attempt of the batch at the head of the queue fails with a retryable
classification, the batch is attempted exactly 4 times in total (the
initial attempt plus 3 backoff retries, each drain below being the run
triggered by the retry timer), after which it is removed from the queue
permanently and the shared retry counter is zero again.  Stated for a
queue that forms a single batch (at most `BATCH_MAX` events), with the
four failing statuses arbitrary retryable ones. -/
theorem claim_C2_retry_bound {α : Type} (q : List α) (hq : q ≠ [])
    (hlen : q.length ≤ BATCH_MAX)
    (s1 s2 s3 s4 : Nat) (b1 b2 b3 b4 : String)
    (h1 : isRetryableStatus s1 = true) (h2 : isRetryableStatus s2 = true)
    (h3 : isRetryableStatus s3 = true) (h4 : isRetryableStatus s4 = true) :
    let d1 := drainLoop [.err s1 b1] q 0
    let d2 := drainLoop [.err s2 b2] d1.queue d1.retryCount
    let d3 := drainLoop [.err s3 b3] d2.queue d2.retryCount
    let d4 := drainLoop [.err s4 b4] d3.queue d3.retryCount
    d1.calls = [q] ∧ d2.calls = [q] ∧ d3.calls = [q] ∧ d4.calls = [q]
    ∧ d1.retryScheduled = true ∧ d2.retryScheduled = true
    ∧ d3.retryScheduled = true ∧ d4.retryScheduled = false
    ∧ d4.queue = [] ∧ d4.retryCount = 0 := by
  have e1 := drainLoop_retryable_requeue q hq hlen s1 h1 b1 0 (by decide)
  have e2 := drainLoop_retryable_requeue q hq hlen s2 h2 b2 1 (by decide)
  have e3 := drainLoop_retryable_requeue q hq hlen s3 h3 b3 2 (by decide)
  have e4 := drainLoop_retryable_drop q hq hlen s4 h4 b4
  simp only [e1, e2, e3]
  have h23 : (2 : Nat) + 1 = RETRY_MAX := by decide
  simp only [h23, e4]
  simp

/-- Witness for C2 at a concrete input: a single queued event failing with
429, 503, 500 and a network failure would also do — here four retryable
HTTP statuses. -/
theorem claim_C2_retry_bound_witness :
    let q : List Nat := [7]
    let d1 := drainLoop [.err 429 "slow down"] q 0
    let d2 := drainLoop [.err 503 "unavailable"] d1.queue d1.retryCount
    let d3 := drainLoop [.err 500 "oops"] d2.queue d2.retryCount
    let d4 := drainLoop [.err 502 "bad gateway"] d3.queue d3.retryCount
    d1.calls = [q] ∧ d2.calls = [q] ∧ d3.calls = [q] ∧ d4.calls = [q]
    ∧ d1.retryScheduled = true ∧ d2.retryScheduled = true
    ∧ d3.retryScheduled = true ∧ d4.retryScheduled = false
    ∧ d4.queue = [] ∧ d4.retryCount = 0 :=
  claim_C2_retry_bound [7] (by decide) (by decide) 429 503 500 502
    "slow down" "unavailable" "oops" "bad gateway"
    (by decide) (by decide) (by decide) (by decide)

/-! ## Flush scheduler and client-level delivery (src/client.ts lines 558-655)

The mutable delivery fields of the `WireLog` class (`_initialized`,
`_queue`, `_flushTimer`, `_retryTimer`, `_retryCount`) plus an observation
log of the network calls issued.  Timers are modelled by their armed flag;
a timer elapsing is a separate transition (not taken in the scenarios
below).  The `_flushPromise` in-flight guard only collapses overlapping
drains in the single-threaded event loop; a drain here is a single atomic
step, so it has no separate representation. -/

inductive FlushReason where
  | manual | batch | interval | retry | hidden | pagehide
deriving Repr, DecidableEq

structure TrackResultS where
  accepted : Nat
  buffered : Option Bool := none
deriving Repr, DecidableEq

structure DeliveryState (α : Type) where
  initialized : Bool
  queue : List α
  flushTimerArmed : Bool
  retryTimerArmed : Bool
  retryCount : Nat
  calls : List (List α)
deriving Repr, DecidableEq

/-- `scheduleFlush` (src/client.ts lines 558-564): arm the debounce timer
unless one is already pending or the queue is empty. -/
def scheduleFlush {α : Type} (st : DeliveryState α) : DeliveryState α :=
  if st.flushTimerArmed || st.queue.isEmpty then st
  else { st with flushTimerArmed := true }

/-- `clearFlushTimer` (src/client.ts lines 566-570). -/
def clearFlushTimer {α : Type} (st : DeliveryState α) : DeliveryState α :=
  { st with flushTimerArmed := false }

/-- `clearRetryTimer` (src/client.ts lines 572-576). -/
def clearRetryTimer {α : Type} (st : DeliveryState α) : DeliveryState α :=
  { st with retryTimerArmed := false }

/-- The backoff delay computed by `scheduleRetry` (src/client.ts line 580),
before the random jitter of up to 250ms. -/
def retryDelay (retryCount : Nat) : Nat :=
  min 30000 (RETRY_BASE_MS * 2 ^ retryCount)

/-- `drainQueuedEvents` (src/client.ts lines 618-655): clear both timers,
run the drain loop, land its final queue / retry counter, and arm the
retry timer exactly when the loop broke on a retryable failure. -/
def drainQueuedEvents {α : Type} (responses : List (HttpResp (Option Nat)))
    (st : DeliveryState α) : DeliveryState α × TrackResultS :=
  if st.queue.isEmpty then (st, ⟨0, none⟩)
  else
    let st1 := clearRetryTimer (clearFlushTimer st)
    let r := drainLoop responses st1.queue st1.retryCount
    ({ st1 with
        queue := r.queue
        retryCount := r.retryCount
        retryTimerArmed := r.retryScheduled
        calls := st1.calls ++ r.calls },
      ⟨r.accepted, none⟩)

/-- `flushQueuedEvents` (src/client.ts lines 606-616): guard on a non-empty
queue and an initialized client, drain, and in the `finally` re-arm the
debounce timer when events remain and no retry timer is pending.  (The
`reason` is threaded to the transport only to select `keepalive`.) -/
def flushQueuedEvents {α : Type} (_reason : FlushReason)
    (responses : List (HttpResp (Option Nat))) (st : DeliveryState α) :
    DeliveryState α × TrackResultS :=
  if st.queue.isEmpty then (st, ⟨0, none⟩)
  else if !st.initialized then (st, ⟨0, some true⟩)
  else
    let (st1, r) := drainQueuedEvents responses st
    let st2 := if !st1.queue.isEmpty && !st1.retryTimerArmed
      then scheduleFlush st1 else st1
    (st2, r)

/-- How the promise returned by `flush()` settles: resolved with a
`TrackResult`, or rejected with a transport failure. -/
inductive FlushOutcome where
  | success (r : TrackResultS)
  | failure (e : PostFailure)
deriving Repr, DecidableEq

/-- The settlement of `flush()` on queued browser events.  Every transport
error is caught inside `sendTrackBatch` (src/client.ts lines 672-685), so
`drainQueuedEvents` — and with it the promise returned by `flush()` —
always resolves; no code path rejects it. -/
def flushPromiseOutcome {α : Type} (responses : List (HttpResp (Option Nat)))
    (st : DeliveryState α) : FlushOutcome :=
  .success (flushQueuedEvents .manual responses st).2

/-- `track` in a browser context (src/client.ts lines 419-435), from the
already-enriched event: bail out with `{accepted: 0, buffered: true}` when
no API key is configured (`ensureInitialized` only logs a warning),
otherwise enqueue and either drain immediately on reaching `BATCH_MAX` or
arm the debounce timer.  (`enrichEvent` runs before the guard in the
source; its identity-state effects are modelled by `browserIdentity` in the
client-state embedding below and never touch the delivery fields.) -/
def track {α : Type} (st : DeliveryState α) (e : α)
    (responses : List (HttpResp (Option Nat))) : DeliveryState α × TrackResultS :=
  if !st.initialized then (st, ⟨0, some true⟩)
  else
    let st1 := { st with queue := enqueueBrowserEvents st.queue [e] }
    if BATCH_MAX ≤ st1.queue.length then
      ((flushQueuedEvents .batch responses st1).1, ⟨1, some true⟩)
    else
      (scheduleFlush st1, ⟨1, some true⟩)

/-- A sequence of `track` calls in quick succession (no timer fires in
between); the environment acknowledges any drain with a 2xx response whose
body omits `accepted`. -/
def trackAll {α : Type} (st : DeliveryState α) (events : List α) : DeliveryState α :=
  events.foldl (fun s e => (track s e [.ok none]).1) st

/-- The delivery state of a freshly constructed, initialized browser
client: empty queue, no timers, zero retries, no network calls yet. -/
def initState (α : Type) : DeliveryState α :=
  ⟨true, [], false, false, 0, []⟩

/-- C4: with an initialized browser client and the batch threshold of 10,
nine `track` calls perform zero network calls (each arms or leaves armed
the debounce timer); the tenth triggers, within the `track` call itself
and without the debounce timer having fired, exactly one network call
carrying exactly the ten enriched events in FIFO insertion order, leaving
the queue empty and both timers disarmed. -/
theorem claim_C4_batch_threshold {α : Type} (es : List α) (h : es.length = 10) :
    (trackAll (initState α) (es.take 9)).calls = []
    ∧ trackAll (initState α) es = ⟨true, [], false, false, 0, [es]⟩ := by
  match es, h with
  | [a, b, c, d, e, f, g, p, i, j], _ =>
    constructor <;>
      simp [trackAll, track, initState, enqueueBrowserEvents, scheduleFlush,
        flushQueuedEvents, drainQueuedEvents, clearFlushTimer, clearRetryTimer,
        drainLoop, sendTrackBatch, post, acceptedFromTrackResponse,
        BATCH_MAX, QUEUE_MAX, RETRY_MAX]

/-- Witness for C4 at ten concrete distinct events. -/
theorem claim_C4_batch_threshold_witness :
    (trackAll (initState Nat) ([0, 1, 2, 3, 4, 5, 6, 7, 8, 9].take 9)).calls = []
    ∧ trackAll (initState Nat) [0, 1, 2, 3, 4, 5, 6, 7, 8, 9]
        = ⟨true, [], false, false, 0, [[0, 1, 2, 3, 4, 5, 6, 7, 8, 9]]⟩ :=
  claim_C4_batch_threshold [0, 1, 2, 3, 4, 5, 6, 7, 8, 9] rfl

/-- C1, counterexample: a queued batch failing with a non-retryable 400
during a `flush()`-triggered drain does NOT surface the typed error to the
caller of `flush()`: the promise resolves successfully with
`{accepted: 0}` (the `WireLogError` is caught inside `sendTrackBatch` and
only classifies the failure), while the batch was indeed sent once and
dropped. -/
theorem claim_C1_counterexample :
    flushPromiseOutcome [.err 400 "bad request"]
        (⟨true, [5], false, false, 0, []⟩ : DeliveryState Nat)
      = .success ⟨0, none⟩
    ∧ isRetryableStatus 400 = false
    ∧ (flushQueuedEvents .manual [.err 400 "bad request"]
        (⟨true, [5], false, false, 0, []⟩ : DeliveryState Nat)).1
      = ⟨true, [], false, false, 0, [[5]]⟩ := by
  decide

/-- C1, amended: on a non-retryable delivery failure during a drain the
failing batch is dropped, never retried (no retry timer is armed), the
shared retry counter resets, and draining continues with the rest of the
queue; the typed error carrying the HTTP status and response body is
surfaced to direct callers of `trackBatch`/`identify`/`query` — whose
result is the `post` promise, which rejects with `WireLogError(status,
body)` — but a caller of `flush()` does not receive it: the flush promise
resolves successfully (here with accepted count 0). -/
theorem claim_C1_amended {α : Type} (s : Nat) (b : String)
    (hs : isRetryableStatus s = false) (q : List α) (hq : q ≠ []) (rc : Nat) :
    drainLoop [.err s b] q rc
        = ⟨0, q.drop BATCH_MAX, 0, [q.take BATCH_MAX], false⟩
    ∧ @post (Option Nat) true none (.err s b) = .error (.api ⟨s, b⟩)
    ∧ flushPromiseOutcome [.err s b]
        (⟨true, q, false, false, rc, []⟩ : DeliveryState α)
      = .success ⟨0, none⟩ := by
  refine ⟨drainLoop_nonretryable q hq s hs b rc, rfl, ?_⟩
  have hne : (List.isEmpty q) = false := by
    cases q
    · exact absurd rfl hq
    · rfl
  simp [flushPromiseOutcome, flushQueuedEvents, drainQueuedEvents, hne,
    clearFlushTimer, clearRetryTimer, drainLoop_nonretryable q hq s hs b rc]

/-- Witness for C1's amended statement at a concrete input (status 400). -/
theorem claim_C1_amended_witness :
    drainLoop [.err 400 "bad request"] [(5 : Nat)] 0
        = ⟨0, [(5 : Nat)].drop BATCH_MAX, 0, [[(5 : Nat)].take BATCH_MAX], false⟩
    ∧ @post (Option Nat) true none (.err 400 "bad request")
        = .error (.api ⟨400, "bad request"⟩)
    ∧ flushPromiseOutcome [.err 400 "bad request"]
        (⟨true, [5], false, false, 0, []⟩ : DeliveryState Nat)
      = .success ⟨0, none⟩ :=
  claim_C1_amended 400 "bad request" (by decide) [5] (by decide) 0

/-- Every event of every batch sent by the drain loop was already in the
queue when the drain started: batches are takes of the evolving queue,
which only ever holds elements of the original one. -/
theorem drainLoop_calls_mem {α : Type} :
    ∀ (responses : List (HttpResp (Option Nat))) (q : List α) (rc : Nat)
      (b : List α), b ∈ (drainLoop responses q rc).calls →
      ∀ x ∈ b, x ∈ q := by
  intro responses
  induction responses with
  | nil =>
      intro q rc b hb
      cases q <;> simp [drainLoop] at hb
  | cons o rest ih =>
      intro q rc b hb x hx
      rcases q with _ | ⟨hd, tl⟩
      · simp [drainLoop] at hb
      · rw [drainLoop] at hb
        simp only at hb
        split at hb
        · -- success: batch :: recursive calls on the remaining queue
          simp only [List.mem_cons] at hb
          rcases hb with rfl | hb
          · exact List.mem_of_mem_take hx
          · exact List.mem_of_mem_drop (ih _ _ b hb x hx)
        · split at hb
          · -- non-retryable: batch :: recursive calls on the remaining queue
            simp only [List.mem_cons] at hb
            rcases hb with rfl | hb
            · exact List.mem_of_mem_take hx
            · exact List.mem_of_mem_drop (ih _ _ b hb x hx)
          · split at hb
            · -- retryable, counter exceeded: batch dropped again
              simp only [List.mem_cons] at hb
              rcases hb with rfl | hb
              · exact List.mem_of_mem_take hx
              · have := ih _ _ b hb x hx
                rw [List.drop_left] at this
                exact List.mem_of_mem_drop this
            · -- retryable, loop breaks: the one batch sent
              simp only [List.mem_singleton] at hb
              subst hb
              exact List.mem_of_mem_take hx

/-- C10: in a browser context, `track` before an API key is configured
returns `{accepted: 0, buffered: true}` and discards the event entirely:
the delivery state is unchanged (queue untouched, no timer armed, no
network call), and since `init` (src/client.ts lines 412-416) only sets
the key/host/initialized flag, any later drain operates on a queue that
never received the event, so it is never delivered. -/
theorem claim_C10_track_uninitialized {α : Type} (st : DeliveryState α) (e : α)
    (responses : List (HttpResp (Option Nat))) (h : st.initialized = false) :
    track st e responses = (st, ⟨0, some true⟩)
    ∧ ∀ (laterResponses : List (HttpResp (Option Nat))) (b : List α),
        b ∈ (drainLoop laterResponses st.queue st.retryCount).calls →
        e ∉ st.queue → e ∉ b := by
  constructor
  · simp [track, h]
  · intro laterResponses b hb hnot he
    exact hnot (drainLoop_calls_mem laterResponses st.queue st.retryCount b hb e he)

/-- Witness for C10: an uninitialized client with an empty queue drops the
tracked event `3`. -/
theorem claim_C10_track_uninitialized_witness :
    track (⟨false, [], false, false, 0, []⟩ : DeliveryState Nat) 3 []
        = (⟨false, [], false, false, 0, []⟩, ⟨0, some true⟩)
    ∧ ∀ (laterResponses : List (HttpResp (Option Nat))) (b : List Nat),
        b ∈ (drainLoop laterResponses
              (⟨false, [], false, false, 0, []⟩ : DeliveryState Nat).queue
              (⟨false, [], false, false, 0, []⟩ : DeliveryState Nat).retryCount).calls →
        (3 : Nat) ∉ (⟨false, [], false, false, 0, []⟩ : DeliveryState Nat).queue →
        (3 : Nat) ∉ b :=
  claim_C10_track_uninitialized (⟨false, [], false, false, 0, []⟩ : DeliveryState Nat)
    3 [] rfl

/-! ## Storage wrappers (src/client.ts lines 192-258)

`localStorage` holds plain strings; `sessionStorage` additionally holds the
JSON-serialized attribution snapshots.  A stored value is either a raw
string or a parsed string-to-string object (`JSON.stringify`/`JSON.parse`
round-trip on such objects is the identity, so serialization is kept
abstract).  The wrappers never throw; a blocked or absent store is simply
an always-`none` map.  The claims below all run in a browser context, so
the `isBrowserEnv()` guard inside each wrapper is hoisted to the
(modelled) call sites, which all branch on the browser flag before
touching storage. -/

inductive SVal where
  | str (s : String)
  | obj (m : List (String × String))
deriving Repr, DecidableEq

def LStore : Type := String → Option String

def SStore : Type := String → Option SVal

def emptyLStore : LStore := fun _ => none

def emptySStore : SStore := fun _ => none

def lsGet (key : String) (ls : LStore) : Option String := ls key

def lsSet (key value : String) (ls : LStore) : LStore :=
  fun k => if k = key then some value else ls k

/-- `localStorage.removeItem` — not called by the client itself, but the
sibling wirelog.js SDK clears keys this way (external mutation). -/
def lsRemoveExternal (key : String) (ls : LStore) : LStore :=
  fun k => if k = key then none else ls k

def ssGet (key : String) (ss : SStore) : Option SVal := ss key

def ssSet (key : String) (value : SVal) (ss : SStore) : SStore :=
  fun k => if k = key then some value else ss k

def ssRemove (key : String) (ss : SStore) : SStore :=
  fun k => if k = key then none else ss k

/-- `readSessionJSON` (src/client.ts lines 238-254): absent or empty raw
value → `\x7b\x7d`; a parse failure or non-object → `\x7b\x7d`; a parsed
object keeps only its non-empty string entries. -/
def readSessionJSON (key : String) (ss : SStore) : List (String × String) :=
  match ssGet key ss with
  | some (.obj m) => m.filter (fun p => p.2 != "")
  | some (.str _) => []
  | none => []

/-- `writeSessionJSON` (src/client.ts lines 256-258). -/
def writeSessionJSON (key : String) (value : List (String × String))
    (ss : SStore) : SStore :=
  ssSet key (.obj value) ss

/-- `hasOwnKeys` (src/client.ts lines 260-265). -/
def hasOwnKeys (m : List (String × String)) : Bool := !m.isEmpty

/-- `cloneMap` (src/client.ts lines 267-270): spread-copy, `\x7b\x7d` for a
missing object. -/
def cloneMap (m : Option (List (String × String))) : List (String × String) :=
  m.getD []

/-- JS `a || b` on possibly-empty strings: an empty string is falsy. -/
def jsOr (a b : Option String) : Option String :=
  match a with
  | some s => if s = "" then b else some s
  | none => b

/-! ## Record operations

A JS `Record<string, string>` is an association list in insertion order;
assignment `out[key] = value` replaces an existing binding in place or
appends a new one. -/

def recGet (m : List (String × String)) (key : String) : Option String :=
  (m.find? (fun p => p.1 = key)).map (fun p => p.2)

def recSet (m : List (String × String)) (key value : String) :
    List (String × String) :=
  if m.any (fun p => p.1 = key) then
    m.map (fun p => if p.1 = key then (key, value) else p)
  else m ++ [(key, value)]

/-! ## Attribution capture (src/client.ts lines 272-296, 765-782) -/

/-- `extractAttributionFromLocation` (src/client.ts lines 272-285): collect
the present, non-empty attribution parameters of the location's query
string, in `ATTR_PARAMS` order. -/
def extractAttributionFromLocation (search : List (String × String)) :
    List (String × String) :=
  ATTR_PARAMS.foldl
    (fun out key =>
      match recGet search key with
      | some v => if v = "" then out else recSet out key v
      | none => out)
    []

/-- `applyAttributionProps` (src/client.ts lines 287-296): copy each
present, non-empty attribution value into the target under the prefixed
key. -/
def applyAttributionProps (target : List (String × String)) (pre : String)
    (attrs : List (String × String)) : List (String × String) :=
  ATTR_PARAMS.foldl
    (fun t key =>
      match recGet attrs key with
      | some v => if v = "" then t else recSet t (pre ++ key) v
      | none => t)
    target

/-- The pair returned by `captureAttribution`. -/
structure AttrPair where
  first : List (String × String)
  last : List (String × String)
deriving Repr, DecidableEq

/-- `captureAttribution` (src/client.ts lines 765-782): outside a browser
return empty snapshots; otherwise read both stored snapshots, and if the
current location carries attribution parameters, commit them as
first-touch only when no first-touch exists yet, and always as the new
last-touch.  The two storage-mutation orders of the source (first-touch
write, then last-touch write) are laid out as the two branches. -/
def captureAttribution (browser : Bool) (search : List (String × String))
    (ss : SStore) : AttrPair × SStore :=
  if !browser then (⟨[], []⟩, ss)
  else
    let current := extractAttributionFromLocation search
    let first := readSessionJSON ATTR_FIRST_KEY ss
    let last := readSessionJSON ATTR_LAST_KEY ss
    if hasOwnKeys current then
      if !hasOwnKeys first then
        (⟨current, current⟩,
          writeSessionJSON ATTR_LAST_KEY current
            (writeSessionJSON ATTR_FIRST_KEY current ss))
      else
        (⟨first, current⟩, writeSessionJSON ATTR_LAST_KEY current ss)
    else (⟨first, last⟩, ss)

/-! ### Storage lemmas -/

theorem ssGet_ssSet_self (k : String) (v : SVal) (ss : SStore) :
    ssGet k (ssSet k v ss) = some v := by
  simp [ssGet, ssSet]

theorem ssGet_ssSet_ne (k k2 : String) (h : k ≠ k2) (v : SVal) (ss : SStore) :
    ssGet k (ssSet k2 v ss) = ssGet k ss := by
  simp [ssGet, ssSet, h]

/-- Writing back a value that is already stored is a no-op. -/
theorem ssSet_same (k : String) (v : SVal) (ss : SStore)
    (h : ssGet k ss = some v) : ssSet k v ss = ss := by
  funext k2
  by_cases h2 : k2 = k
  · subst h2
    simpa [ssSet] using h.symm
  · simp [ssSet, h2]

/-- Every element produced by `recSet` is the new binding or an original
one. -/
theorem recSet_mem (m : List (String × String)) (k v : String)
    (p : String × String) (hp : p ∈ recSet m k v) : p.2 = v ∨ p ∈ m := by
  unfold recSet at hp
  split at hp
  · rcases List.mem_map.mp hp with ⟨q, hq, heq⟩
    by_cases hk : q.1 = k
    · simp [hk] at heq
      left
      rw [← heq]
    · simp [hk] at heq
      right
      rw [← heq]
      exact hq
  · rcases List.mem_append.mp hp with h | h
    · right; exact h
    · left
      simp at h
      rw [h]

/-- All values collected from the location are non-empty. -/
theorem extract_values_ne (search : List (String × String)) :
    ∀ p ∈ extractAttributionFromLocation search, p.2 ≠ "" := by
  unfold extractAttributionFromLocation
  have main : ∀ (keys : List String) (acc : List (String × String)),
      (∀ p ∈ acc, p.2 ≠ "") →
      ∀ p ∈ keys.foldl
        (fun out key =>
          match recGet search key with
          | some v => if v = "" then out else recSet out key v
          | none => out) acc, p.2 ≠ "" := by
    intro keys
    induction keys with
    | nil => intro acc hacc p hp; exact hacc p hp
    | cons key rest ih =>
        intro acc hacc p hp
        refine ih _ ?_ p hp
        intro q hq
        rcases hrec : recGet search key with _ | v
        · rw [List.foldl_cons, hrec] at hp
          simp only [hrec] at hq
          exact hacc q hq
        · simp only [hrec] at hq
          by_cases hv : v = ""
          · rw [if_pos hv] at hq
            exact hacc q hq
          · rw [if_neg hv] at hq
            rcases recSet_mem acc key v q hq with h | h
            · rw [h]; exact hv
            · exact hacc q h
  exact main ATTR_PARAMS [] (by intro p hp; cases hp)

/-- A list with no empty values passes the `readSessionJSON` filter
unchanged. -/
theorem filter_ne_empty_eq_self (m : List (String × String))
    (h : ∀ p ∈ m, p.2 ≠ "") : m.filter (fun p => p.2 != "") = m := by
  apply List.filter_eq_self.mpr
  intro p hp
  simpa using h p hp

theorem readSessionJSON_write_self (k : String) (m : List (String × String))
    (ss : SStore) (h : ∀ p ∈ m, p.2 ≠ "") :
    readSessionJSON k (writeSessionJSON k m ss) = m := by
  simp [readSessionJSON, writeSessionJSON, ssGet_ssSet_self,
    filter_ne_empty_eq_self m h]

theorem readSessionJSON_write_ne (k k2 : String) (h : k ≠ k2)
    (m : List (String × String)) (ss : SStore) :
    readSessionJSON k (writeSessionJSON k2 m ss) = readSessionJSON k ss := by
  simp [readSessionJSON, writeSessionJSON, ssGet_ssSet_ne k k2 h]

/-- C7: within a session, (i) a non-empty first-touch snapshot is never
overwritten by a later `captureAttribution` (both in storage and in the
returned pair it stays the stored value); (ii) the last-touch snapshot is
overwritten with the currently observed attribution parameters whenever
any are present; (iii) with no attribution parameters in the location the
call changes no stored state and returns the already-stored snapshots; and
(iv) a repeated call under the same location is a no-op returning the same
result (idempotence). -/
theorem claim_C7_attribution_invariants (search : List (String × String))
    (ss : SStore) :
    (readSessionJSON ATTR_FIRST_KEY ss ≠ [] →
        readSessionJSON ATTR_FIRST_KEY (captureAttribution true search ss).2
            = readSessionJSON ATTR_FIRST_KEY ss
        ∧ (captureAttribution true search ss).1.first
            = readSessionJSON ATTR_FIRST_KEY ss)
    ∧ (extractAttributionFromLocation search ≠ [] →
        (captureAttribution true search ss).1.last
            = extractAttributionFromLocation search
        ∧ readSessionJSON ATTR_LAST_KEY (captureAttribution true search ss).2
            = extractAttributionFromLocation search)
    ∧ (extractAttributionFromLocation search = [] →
        (captureAttribution true search ss).2 = ss
        ∧ (captureAttribution true search ss).1
            = ⟨readSessionJSON ATTR_FIRST_KEY ss, readSessionJSON ATTR_LAST_KEY ss⟩)
    ∧ captureAttribution true search (captureAttribution true search ss).2
        = captureAttribution true search ss := by
  have hvals := extract_values_ne search
  have hkeys : ATTR_FIRST_KEY ≠ ATTR_LAST_KEY := by decide
  by_cases hc : extractAttributionFromLocation search = []
  · have hcap : captureAttribution true search ss
        = (⟨readSessionJSON ATTR_FIRST_KEY ss, readSessionJSON ATTR_LAST_KEY ss⟩,
            ss) := by
      simp [captureAttribution, hasOwnKeys, hc]
    refine ⟨?_, ?_, ?_, ?_⟩
    · intro _
      rw [hcap]
      exact ⟨rfl, rfl⟩
    · intro h
      exact absurd hc h
    · intro _
      rw [hcap]
      exact ⟨rfl, rfl⟩
    · rw [hcap]
      exact hcap
  · have hcur : hasOwnKeys (extractAttributionFromLocation search) = true := by
      simp [hasOwnKeys, List.isEmpty_iff, hc]
    by_cases hf : readSessionJSON ATTR_FIRST_KEY ss = []
    · -- no first-touch yet: both snapshots are committed
      have hfirstb : hasOwnKeys (readSessionJSON ATTR_FIRST_KEY ss) = false := by
        simp [hasOwnKeys, List.isEmpty_iff, hf]
      have hcap : captureAttribution true search ss
          = (⟨extractAttributionFromLocation search,
                extractAttributionFromLocation search⟩,
              writeSessionJSON ATTR_LAST_KEY (extractAttributionFromLocation search)
                (writeSessionJSON ATTR_FIRST_KEY
                  (extractAttributionFromLocation search) ss)) := by
        simp [captureAttribution, hcur, hfirstb]
      have h2first : readSessionJSON ATTR_FIRST_KEY
          (writeSessionJSON ATTR_LAST_KEY (extractAttributionFromLocation search)
            (writeSessionJSON ATTR_FIRST_KEY
              (extractAttributionFromLocation search) ss))
          = extractAttributionFromLocation search := by
        rw [readSessionJSON_write_ne _ _ hkeys,
          readSessionJSON_write_self _ _ _ hvals]
      refine ⟨?_, ?_, ?_, ?_⟩
      · intro h
        exact absurd hf h
      · intro _
        rw [hcap]
        refine ⟨rfl, ?_⟩
        exact readSessionJSON_write_self _ _ _ hvals
      · intro h
        exact absurd h hc
      · rw [hcap]
        have h2firstb : hasOwnKeys (readSessionJSON ATTR_FIRST_KEY
            (writeSessionJSON ATTR_LAST_KEY (extractAttributionFromLocation search)
              (writeSessionJSON ATTR_FIRST_KEY
                (extractAttributionFromLocation search) ss))) = true := by
          rw [h2first]
          exact hcur
        have hsame : writeSessionJSON ATTR_LAST_KEY
            (extractAttributionFromLocation search)
            (writeSessionJSON ATTR_LAST_KEY (extractAttributionFromLocation search)
              (writeSessionJSON ATTR_FIRST_KEY
                (extractAttributionFromLocation search) ss))
            = writeSessionJSON ATTR_LAST_KEY (extractAttributionFromLocation search)
                (writeSessionJSON ATTR_FIRST_KEY
                  (extractAttributionFromLocation search) ss) := by
          apply ssSet_same
          exact ssGet_ssSet_self _ _ _
        simp [captureAttribution, hcur, h2firstb, h2first, hsame]
    · -- first-touch already populated: only last-touch is overwritten
      have hfirstb : hasOwnKeys (readSessionJSON ATTR_FIRST_KEY ss) = true := by
        simp [hasOwnKeys, List.isEmpty_iff, hf]
      have hcap : captureAttribution true search ss
          = (⟨readSessionJSON ATTR_FIRST_KEY ss,
                extractAttributionFromLocation search⟩,
              writeSessionJSON ATTR_LAST_KEY
                (extractAttributionFromLocation search) ss) := by
        simp [captureAttribution, hcur, hfirstb]
      have h2first : readSessionJSON ATTR_FIRST_KEY
          (writeSessionJSON ATTR_LAST_KEY
            (extractAttributionFromLocation search) ss)
          = readSessionJSON ATTR_FIRST_KEY ss :=
        readSessionJSON_write_ne _ _ hkeys _ _
      refine ⟨?_, ?_, ?_, ?_⟩
      · intro _
        rw [hcap]
        exact ⟨h2first, rfl⟩
      · intro _
        rw [hcap]
        refine ⟨rfl, ?_⟩
        exact readSessionJSON_write_self _ _ _ hvals
      · intro h
        exact absurd h hc
      · rw [hcap]
        have h2firstb : hasOwnKeys (readSessionJSON ATTR_FIRST_KEY
            (writeSessionJSON ATTR_LAST_KEY
              (extractAttributionFromLocation search) ss)) = true := by
          rw [h2first]
          exact hfirstb
        have hsame : writeSessionJSON ATTR_LAST_KEY
            (extractAttributionFromLocation search)
            (writeSessionJSON ATTR_LAST_KEY
              (extractAttributionFromLocation search) ss)
            = writeSessionJSON ATTR_LAST_KEY
                (extractAttributionFromLocation search) ss := by
          apply ssSet_same
          exact ssGet_ssSet_self _ _ _
        simp [captureAttribution, hcur, h2firstb, h2first, hsame, hfirstb]

/-- Witness for C7 at a concrete input: first-touch `utm_source=a` already
stored, location now carrying `utm_source=b` — first-touch stays `a`,
last-touch becomes `b`, repeated capture is a no-op. -/
theorem claim_C7_attribution_invariants_witness :
    (readSessionJSON ATTR_FIRST_KEY
        (writeSessionJSON ATTR_FIRST_KEY [("utm_source", "a")] emptySStore)
          = [("utm_source", "a")])
    ∧ (captureAttribution true [("utm_source", "b")]
        (writeSessionJSON ATTR_FIRST_KEY [("utm_source", "a")] emptySStore)).1.first
          = [("utm_source", "a")]
    ∧ (captureAttribution true [("utm_source", "b")]
        (writeSessionJSON ATTR_FIRST_KEY [("utm_source", "a")] emptySStore)).1.last
          = [("utm_source", "b")]
    ∧ captureAttribution true [("utm_source", "b")]
        (captureAttribution true [("utm_source", "b")]
          (writeSessionJSON ATTR_FIRST_KEY [("utm_source", "a")] emptySStore)).2
      = captureAttribution true [("utm_source", "b")]
          (writeSessionJSON ATTR_FIRST_KEY [("utm_source", "a")] emptySStore) := by
  have h := claim_C7_attribution_invariants [("utm_source", "b")]
    (writeSessionJSON ATTR_FIRST_KEY [("utm_source", "a")] emptySStore)
  have hfirst : readSessionJSON ATTR_FIRST_KEY
      (writeSessionJSON ATTR_FIRST_KEY [("utm_source", "a")] emptySStore)
      = [("utm_source", "a")] := by decide
  have hcur : extractAttributionFromLocation [("utm_source", "b")]
      = [("utm_source", "b")] := by decide
  refine ⟨hfirst, ?_, ?_, h.2.2.2⟩
  · rw [(h.1 (by rw [hfirst]; decide)).2, hfirst]
  · rw [(h.2.1 (by rw [hcur]; decide)).1, hcur]

/-! ## Identity state (src/client.ts lines 358-399, 472-541, 700-763)

The identity-bearing fields of the `WireLog` class.  The delivery fields
live in `DeliveryState` above; the two groups are disjoint (no method
touches both in a way the claims observe). -/

structure ClientState where
  apiKey : String
  host : String
  initialized : Bool
  deviceId : Option String
  sessionId : Option String
  lastActivity : Nat
  userId : Option String
  attrIdentified : Option String
deriving Repr, DecidableEq

/-- `host.replace(/\/$/, "")`: strip one trailing slash. -/
def stripTrailingSlash (h : String) : String :=
  if h.endsWith "/" then h.dropRight 1 else h

/-- JS `x || null` on a nullable string: an empty string becomes null. -/
def orNull (o : Option String) : Option String :=
  match o with
  | some s => if s = "" then none else some s
  | none => none

/-- The constructor (src/client.ts lines 378-399): store the key and
slash-stripped host, mark initialized iff an API key was given; in a
browser, adopt the sibling SDK's device id from `wl_did` or generate and
persist a fresh one, read `wl_uid` (absence is the anonymous state),
generate a fresh session id (it is NOT read from nor persisted to session
storage), stamp the last activity, read the attribution-sync marker, and
run `captureAttribution`.  (`installBrowserFlushHooks` only registers page
lifecycle listeners.)  A stored non-string marker value reads as the raw
serialized text; only the plain-string case occurs, the others read as
absent here. -/
def construct (browser : Bool) (apiKey host : String)
    (freshDevice freshSession : String) (now : Nat)
    (search : List (String × String)) (ls : LStore) (ss : SStore) :
    ClientState × LStore × SStore :=
  let host := stripTrailingSlash host
  let initialized := apiKey ≠ ""
  if !browser then
    (⟨apiKey, host, initialized, none, none, 0, none, none⟩, ls, ss)
  else
    let did0 := orNull (lsGet "wl_did" ls)
    let deviceId := did0.getD freshDevice
    let ls := if did0 = none then lsSet "wl_did" freshDevice ls else ls
    let userId := orNull (lsGet "wl_uid" ls)
    let attrIdentified :=
      match ssGet ATTR_SYNC_USER_KEY ss with
      | some (.str s) => if s = "" then none else some s
      | _ => none
    let (_, ss) := captureAttribution browser search ss
    (⟨apiKey, host, initialized, some deviceId, some freshSession, now,
        userId, attrIdentified⟩, ls, ss)

/-- The identity triple merged into events. -/
structure IdentityFields where
  device_id : Option String
  session_id : Option String
  user_id : Option String
deriving Repr, DecidableEq

/-- `browserIdentity` (src/client.ts lines 718-741): refresh attribution,
rotate the session id when absent or idle past `SESSION_TIMEOUT`, stamp
last activity, and re-read `wl_uid` in case the sibling SDK changed the
user — note that `wl_did` is NOT re-read here and the device id is neither
checked against storage nor re-persisted. -/
def browserIdentity (browser : Bool) (now : Nat) (freshSession : String)
    (search : List (String × String)) (st : ClientState) (ls : LStore)
    (ss : SStore) : IdentityFields × ClientState × SStore :=
  if !browser then (⟨none, none, none⟩, st, ss)
  else
    let (_, ss) := captureAttribution browser search ss
    let st := if st.sessionId = none ∨ SESSION_TIMEOUT < now - st.lastActivity
      then { st with sessionId := some freshSession } else st
    let st := { st with lastActivity := now }
    let st :=
      match orNull (lsGet "wl_uid" ls) with
      | some s => if some s ≠ st.userId then { st with userId := some s } else st
      | none => st
    (⟨st.deviceId, st.sessionId, st.userId⟩, st, ss)

/-- The auto-context read from the browser at enrichment time:
`window.location.href`, `navigator.language` (absent when empty), and the
resolved IANA timezone (absent when `Intl` fails or yields none). -/
structure BrowserCtx where
  url : String
  language : Option String
  timezone : Option String
deriving Repr, DecidableEq

/-- `mergeBrowserContext` (src/client.ts lines 743-763): auto-context
first, caller-supplied properties merged over it (caller keys win). -/
def mergeBrowserContext (browser : Bool) (ctx : BrowserCtx)
    (props : Option (List (String × String))) :
    Option (List (String × String)) :=
  if !browser then props
  else
    let autoProps := [("url", ctx.url)]
    let autoProps := match ctx.language with
      | some l => autoProps ++ [("language", l)]
      | none => autoProps
    let autoProps := match ctx.timezone with
      | some tz => autoProps ++ [("timezone", tz)]
      | none => autoProps
    some ((props.getD []).foldl (fun acc p => recSet acc p.1 p.2) autoProps)

structure TrackEventS where
  event_type : String
  user_id : Option String := none
  device_id : Option String := none
  session_id : Option String := none
  clientOriginated : Option Bool := none
  time : Option String := none
  event_properties : Option (List (String × String)) := none
  user_properties : Option (List (String × String)) := none
  insert_id : Option String := none
deriving Repr, DecidableEq

/-- JS object spread on one field: the later (caller) value wins when
present. -/
def spreadField {β : Type} (override base : Option β) : Option β :=
  match override with
  | some v => some v
  | none => base

/-- `enrichEvent` (src/client.ts lines 700-712): merge the identity fields
under the caller's event (caller identity wins), merge browser context
into the properties, fill `insert_id` and `time` when absent, and force
`clientOriginated` in a browser. -/
def enrichEvent (browser : Bool) (now : Nat)
    (freshSession freshInsert nowIso : String) (ctx : BrowserCtx)
    (search : List (String × String)) (ev : TrackEventS) (st : ClientState)
    (ls : LStore) (ss : SStore) : TrackEventS × ClientState × SStore :=
  let (identity, st, ss) := browserIdentity browser now freshSession search st ls ss
  let props := mergeBrowserContext browser ctx ev.event_properties
  ({ ev with
      user_id := spreadField ev.user_id identity.user_id
      device_id := spreadField ev.device_id identity.device_id
      session_id := spreadField ev.session_id identity.session_id
      event_properties := props
      insert_id := some (ev.insert_id.getD freshInsert)
      time := some (ev.time.getD nowIso)
      clientOriginated := if browser then some true else ev.clientOriginated },
    st, ss)

/-! ## identify (src/client.ts lines 472-518) -/

/-- `user_property_ops` (src/client.ts lines 327-332); values are kept as
opaque strings (`$add` deltas as integers). -/
structure OpsS where
  set : Option (List (String × String)) := none
  set_once : Option (List (String × String)) := none
  add : Option (List (String × Int)) := none
  unset : Option (List String) := none
deriving Repr, DecidableEq

structure IdentifyParamsS where
  user_id : String
  device_id : Option String := none
  user_properties : Option (List (String × String)) := none
  user_property_ops : Option OpsS := none
deriving Repr, DecidableEq

structure IdentifyResultS where
  ok : Bool
deriving Repr, DecidableEq

/-- JS `String.prototype.trim`: strip leading and trailing whitespace.
Defined over the character list so that it evaluates inside the kernel
(core `String.trim` gets stuck on byte positions). -/
def trimS (s : String) : String :=
  ⟨((s.data.dropWhile Char.isWhitespace).reverse.dropWhile
      Char.isWhitespace).reverse⟩

/-- How `identify` can fail: the synchronous validation throw for an empty
user id, or the rejection propagated from `post`. -/
inductive IdentifyFailure where
  | emptyUserId
  | post (f : PostFailure)
deriving Repr, DecidableEq

/-- The request body `identify` hands to `post` (src/client.ts lines
503-508). -/
structure IdentifyBody where
  user_id : String
  device_id : Option String
  user_properties : Option (List (String × String))
  user_property_ops : Option OpsS
deriving Repr, DecidableEq

/-- Everything observable about one `identify` call: how its promise
settles, the request body sent (none when validation failed before any
send), and the client/storage state left behind. -/
structure IdentifyOutcome where
  result : Except IdentifyFailure IdentifyResultS
  request : Option IdentifyBody
  state : ClientState
  ls : LStore
  ss : SStore

/-- `identify` (src/client.ts lines 472-518): reject an empty trimmed user
id; in a browser set the in-memory user id and persist it to `wl_uid`
BEFORE the network call, refresh attribution, and — unless attribution was
already synced for this user — merge `initial_`-prefixed first-touch
entries into a copy of the caller's `$set_once` and `last_`-prefixed
last-touch entries into a copy of the caller's `$set` (assignment
overwrites on key collision, which `recSet` mirrors).  After a successful
`post`, and only then, record the attribution-sync marker.  Nothing is
rolled back on failure. -/
def identify (browser : Bool) (search : List (String × String))
    (resp : HttpResp IdentifyResultS) (params : IdentifyParamsS)
    (st : ClientState) (ls : LStore) (ss : SStore) : IdentifyOutcome :=
  let userID := trimS params.user_id
  if userID = "" then ⟨.error .emptyUserId, none, st, ls, ss⟩
  else
    let ops0 := params.user_property_ops
    let step :=
      if browser then
        let st1 := { st with userId := some userID }
        let ls1 := lsSet "wl_uid" userID ls
        let capture := captureAttribution browser search ss
        let attrs := capture.1
        let ss1 := capture.2
        if st1.attrIdentified ≠ some userID then
          let setOnce := applyAttributionProps
            (cloneMap (ops0.bind OpsS.set_once)) "initial_" attrs.first
          let setLast := applyAttributionProps
            (cloneMap (ops0.bind OpsS.set)) "last_" attrs.last
          let base := ops0.getD ⟨none, none, none, none⟩
          let merged : OpsS := { base with
            set_once := if hasOwnKeys setOnce then some setOnce else base.set_once
            set := if hasOwnKeys setLast then some setLast else base.set }
          (some merged, hasOwnKeys attrs.first || hasOwnKeys attrs.last,
            st1, ls1, ss1)
        else (ops0, false, st1, ls1, ss1)
      else (ops0, false, st, ls, ss)
    let mergedOps := step.1
    let shouldMarkAttrSynced := step.2.1
    let st1 := step.2.2.1
    let ls1 := step.2.2.2.1
    let ss1 := step.2.2.2.2
    let body : IdentifyBody :=
      ⟨userID, jsOr params.device_id st1.deviceId, params.user_properties,
        mergedOps⟩
    match post st1.initialized ⟨false⟩ resp with
    | .error f => ⟨.error (.post f), some body, st1, ls1, ss1⟩
    | .ok r =>
        if browser && shouldMarkAttrSynced then
          ⟨.ok r, some body, { st1 with attrIdentified := some userID },
            ls1, ssSet ATTR_SYNC_USER_KEY (.str userID) ss1⟩
        else ⟨.ok r, some body, st1, ls1, ss1⟩

/-- `captureAttribution` never touches the attribution-sync marker key. -/
theorem captureAttribution_marker_unchanged (search : List (String × String))
    (ss : SStore) :
    ssGet ATTR_SYNC_USER_KEY (captureAttribution true search ss).2
      = ssGet ATTR_SYNC_USER_KEY ss := by
  have h1 : ATTR_SYNC_USER_KEY ≠ ATTR_FIRST_KEY := by decide
  have h2 : ATTR_SYNC_USER_KEY ≠ ATTR_LAST_KEY := by decide
  unfold captureAttribution
  simp only [Bool.not_true, Bool.false_eq_true, if_false]
  split
  · split
    · simp [writeSessionJSON, ssGet_ssSet_ne _ _ h2, ssGet_ssSet_ne _ _ h1]
    · simp [writeSessionJSON, ssGet_ssSet_ne _ _ h2]
  · rfl

/-- C6, counterexample: with a browser client that has no API key yet
(`ensureInitialized` is not consulted by `identify`; `post` soft-fails to
`\x7b\x7d`, which parses to a result with falsy `ok`), an `identify` call
with attribution present sets the attribution-synced marker to the user id
even though NO identify network call returned a 2xx response — the
environment's (never consulted) response is an error here.  This
contradicts the claim for uninitialized clients. -/
theorem claim_C6_counterexample :
    (identify true [("utm_source", "google")] (.err 500 "server down")
        ⟨"u1", none, none, none⟩
        (⟨"", "https://api.wirelog.ai", false, some "d0", some "s0", 0,
            none, none⟩ : ClientState)
        emptyLStore emptySStore).state.attrIdentified = some "u1"
    ∧ ssGet ATTR_SYNC_USER_KEY
        (identify true [("utm_source", "google")] (.err 500 "server down")
          ⟨"u1", none, none, none⟩
          (⟨"", "https://api.wirelog.ai", false, some "d0", some "s0", 0,
              none, none⟩ : ClientState)
          emptyLStore emptySStore).ss = some (.str "u1")
    ∧ (identify true [("utm_source", "google")] (.err 500 "server down")
        ⟨"u1", none, none, none⟩
        (⟨"", "https://api.wirelog.ai", false, some "d0", some "s0", 0,
            none, none⟩ : ClientState)
        emptyLStore emptySStore).result = .ok ⟨false⟩ := by
  refine ⟨?_, ?_, ?_⟩ <;> rfl

/-- C6, amended: for every `identify` call in a browser context on an
INITIALIZED client, the attribution-synced marker (both the in-memory
field and the session-storage key) is set to the given (trimmed) user id
only after the identify network call returns a 2xx response with
attribution present to merge; on a failed (non-2xx or network-error or
validation-error) identify outcome both are left untouched, so the next
identify for that user id re-sends the attribution merge. -/
theorem claim_C6_amended (search : List (String × String))
    (resp : HttpResp IdentifyResultS) (params : IdentifyParamsS)
    (st : ClientState) (ls : LStore) (ss : SStore)
    (hinit : st.initialized = true) :
    (∀ f, (identify true search resp params st ls ss).result = .error f →
        (identify true search resp params st ls ss).state.attrIdentified
            = st.attrIdentified
        ∧ ssGet ATTR_SYNC_USER_KEY (identify true search resp params st ls ss).ss
            = ssGet ATTR_SYNC_USER_KEY ss)
    ∧ ((identify true search resp params st ls ss).state.attrIdentified
          ≠ st.attrIdentified →
        (∃ r : IdentifyResultS, resp = .ok r)
        ∧ (identify true search resp params st ls ss).state.attrIdentified
            = some (trimS params.user_id)
        ∧ (hasOwnKeys (captureAttribution true search ss).1.first
            || hasOwnKeys (captureAttribution true search ss).1.last) = true) := by
  have hmarker := captureAttribution_marker_unchanged search ss
  by_cases huid : trimS params.user_id = ""
  · constructor
    · intro f _
      simp [identify, huid]
    · intro hne
      exfalso
      apply hne
      simp [identify, huid]
  · by_cases hsync : st.attrIdentified = some (trimS params.user_id)
    · -- already synced for this user: no merge, no mark
      rcases resp with r | ⟨s, b⟩ | _
      · constructor
        · intro f hf
          exfalso
          simp [identify, huid, hsync, post, hinit] at hf
        · intro hne
          exfalso
          apply hne
          simp [identify, huid, hsync, post, hinit]
      · constructor
        · intro f _
          constructor
          · simp [identify, huid, hsync, post, hinit]
          · simp [identify, huid, hsync, post, hinit, hmarker]
        · intro hne
          exfalso
          apply hne
          simp [identify, huid, hsync, post, hinit]
      · constructor
        · intro f _
          constructor
          · simp [identify, huid, hsync, post, hinit]
          · simp [identify, huid, hsync, post, hinit, hmarker]
        · intro hne
          exfalso
          apply hne
          simp [identify, huid, hsync, post, hinit]
    · -- not yet synced: the merge branch runs
      rcases resp with r | ⟨s, b⟩ | _
      · by_cases hmark : (hasOwnKeys (captureAttribution true search ss).1.first
            || hasOwnKeys (captureAttribution true search ss).1.last) = true
        · constructor
          · intro f hf
            exfalso
            simp [identify, huid, hsync, post, hinit, hmark] at hf
          · intro _
            refine ⟨⟨r, rfl⟩, ?_, hmark⟩
            simp [identify, huid, hsync, post, hinit, hmark]
        · constructor
          · intro f hf
            exfalso
            simp [identify, huid, hsync, post, hinit, hmark] at hf
          · intro hne
            exfalso
            apply hne
            simp [identify, huid, hsync, post, hinit, hmark]
      · constructor
        · intro f _
          constructor
          · simp [identify, huid, hsync, post, hinit]
          · simp [identify, huid, hsync, post, hinit, hmarker]
        · intro hne
          exfalso
          apply hne
          simp [identify, huid, hsync, post, hinit]
      · constructor
        · intro f _
          constructor
          · simp [identify, huid, hsync, post, hinit]
          · simp [identify, huid, hsync, post, hinit, hmarker]
        · intro hne
          exfalso
          apply hne
          simp [identify, huid, hsync, post, hinit]

/-- Witness for C6's amended statement: an initialized client whose
identify call fails with a 500 leaves both marker locations untouched. -/
theorem claim_C6_amended_witness :
    (∀ f, (identify true [("utm_source", "google")] (.err 500 "down")
        ⟨"u1", none, none, none⟩
        (⟨"pk_k", "https://api.wirelog.ai", true, some "d0", some "s0", 0,
            none, none⟩ : ClientState)
        emptyLStore emptySStore).result = .error f →
        (identify true [("utm_source", "google")] (.err 500 "down")
          ⟨"u1", none, none, none⟩
          (⟨"pk_k", "https://api.wirelog.ai", true, some "d0", some "s0", 0,
              none, none⟩ : ClientState)
          emptyLStore emptySStore).state.attrIdentified
            = (⟨"pk_k", "https://api.wirelog.ai", true, some "d0", some "s0", 0,
                none, none⟩ : ClientState).attrIdentified
        ∧ ssGet ATTR_SYNC_USER_KEY
            (identify true [("utm_source", "google")] (.err 500 "down")
              ⟨"u1", none, none, none⟩
              (⟨"pk_k", "https://api.wirelog.ai", true, some "d0", some "s0", 0,
                  none, none⟩ : ClientState)
              emptyLStore emptySStore).ss
            = ssGet ATTR_SYNC_USER_KEY emptySStore)
    ∧ ((identify true [("utm_source", "google")] (.err 500 "down")
          ⟨"u1", none, none, none⟩
          (⟨"pk_k", "https://api.wirelog.ai", true, some "d0", some "s0", 0,
              none, none⟩ : ClientState)
          emptyLStore emptySStore).state.attrIdentified
            ≠ (⟨"pk_k", "https://api.wirelog.ai", true, some "d0", some "s0", 0,
                none, none⟩ : ClientState).attrIdentified →
        (∃ r : IdentifyResultS, (.err 500 "down" : HttpResp IdentifyResultS) = .ok r)
        ∧ (identify true [("utm_source", "google")] (.err 500 "down")
            ⟨"u1", none, none, none⟩
            (⟨"pk_k", "https://api.wirelog.ai", true, some "d0", some "s0", 0,
                none, none⟩ : ClientState)
            emptyLStore emptySStore).state.attrIdentified
            = some (trimS "u1")
        ∧ (hasOwnKeys (captureAttribution true [("utm_source", "google")]
              emptySStore).1.first
            || hasOwnKeys (captureAttribution true [("utm_source", "google")]
              emptySStore).1.last) = true) :=
  claim_C6_amended [("utm_source", "google")] (.err 500 "down")
    ⟨"u1", none, none, none⟩
    (⟨"pk_k", "https://api.wirelog.ai", true, some "d0", some "s0", 0,
        none, none⟩ : ClientState)
    emptyLStore emptySStore rfl

theorem lsGet_lsSet_self (k v : String) (ls : LStore) :
    lsGet k (lsSet k v ls) = some v := by
  simp [lsGet, lsSet]

/-- Whatever `browserIdentity` does to the session, the user id it merges
into events is the one stored under `wl_uid` (non-empty), re-read on every
enrichment. -/
theorem browserIdentity_user_id (now : Nat) (fresh : String)
    (search : List (String × String)) (st : ClientState) (ls : LStore)
    (ss : SStore) (u : String) (h : orNull (lsGet "wl_uid" ls) = some u) :
    (browserIdentity true now fresh search st ls ss).1.user_id = some u := by
  simp only [browserIdentity, h]
  split
  · simp_all
  · split <;> split_ifs <;> simp_all

/-- C9 (implicit): in a browser context, `identify` sets the in-memory
user id and persists it to `wl_uid` before issuing the network call; when
the call fails (non-2xx, or a network-level rejection) these assignments
are not rolled back — the identify promise rejects with the typed error,
yet the new user id remains in memory and in durable storage, and a
subsequent enrichment (`browserIdentity`) attaches it to events. -/
theorem claim_C9_identify_no_rollback (search search2 : List (String × String))
    (params : IdentifyParamsS) (st : ClientState) (ls : LStore) (ss : SStore)
    (s : Nat) (b : String) (now : Nat) (fresh : String)
    (huid : trimS params.user_id ≠ "") (hinit : st.initialized = true) :
    (identify true search (.err s b) params st ls ss).result
        = .error (.post (.api ⟨s, b⟩))
    ∧ (identify true search (.err s b) params st ls ss).state.userId
        = some (trimS params.user_id)
    ∧ lsGet "wl_uid" (identify true search (.err s b) params st ls ss).ls
        = some (trimS params.user_id)
    ∧ (browserIdentity true now fresh search2
          (identify true search (.err s b) params st ls ss).state
          (identify true search (.err s b) params st ls ss).ls
          (identify true search (.err s b) params st ls ss).ss).1.user_id
        = some (trimS params.user_id)
    ∧ (identify true search .netfail params st ls ss).result
        = .error (.post .network)
    ∧ (identify true search .netfail params st ls ss).state.userId
        = some (trimS params.user_id) := by
  have hls : (identify true search (.err s b) params st ls ss).ls
      = lsSet "wl_uid" (trimS params.user_id) ls := by
    by_cases hsync : st.attrIdentified = some (trimS params.user_id) <;>
      simp [identify, huid, hsync, post, hinit]
  have huser : (identify true search (.err s b) params st ls ss).state.userId
      = some (trimS params.user_id) := by
    by_cases hsync : st.attrIdentified = some (trimS params.user_id) <;>
      simp [identify, huid, hsync, post, hinit]
  refine ⟨?_, huser, ?_, ?_, ?_, ?_⟩
  · by_cases hsync : st.attrIdentified = some (trimS params.user_id) <;>
      simp [identify, huid, hsync, post, hinit]
  · rw [hls]
    exact lsGet_lsSet_self _ _ _
  · apply browserIdentity_user_id
    rw [hls, lsGet_lsSet_self]
    simp [orNull, huid]
  · by_cases hsync : st.attrIdentified = some (trimS params.user_id) <;>
      simp [identify, huid, hsync, post, hinit]
  · by_cases hsync : st.attrIdentified = some (trimS params.user_id) <;>
      simp [identify, huid, hsync, post, hinit]

/-- Witness for C9 at a concrete input: identify "u1" against a 500
response on an initialized browser client. -/
theorem claim_C9_identify_no_rollback_witness :
    (identify true [] (.err 500 "down") ⟨"u1", none, none, none⟩
        (⟨"pk_k", "https://api.wirelog.ai", true, some "d0", some "s0", 0,
            none, none⟩ : ClientState) emptyLStore emptySStore).result
        = .error (.post (.api ⟨500, "down"⟩))
    ∧ (identify true [] (.err 500 "down") ⟨"u1", none, none, none⟩
        (⟨"pk_k", "https://api.wirelog.ai", true, some "d0", some "s0", 0,
            none, none⟩ : ClientState) emptyLStore emptySStore).state.userId
        = some (trimS "u1")
    ∧ lsGet "wl_uid" (identify true [] (.err 500 "down") ⟨"u1", none, none, none⟩
        (⟨"pk_k", "https://api.wirelog.ai", true, some "d0", some "s0", 0,
            none, none⟩ : ClientState) emptyLStore emptySStore).ls
        = some (trimS "u1")
    ∧ (browserIdentity true 5000 "s1" []
          (identify true [] (.err 500 "down") ⟨"u1", none, none, none⟩
            (⟨"pk_k", "https://api.wirelog.ai", true, some "d0", some "s0", 0,
                none, none⟩ : ClientState) emptyLStore emptySStore).state
          (identify true [] (.err 500 "down") ⟨"u1", none, none, none⟩
            (⟨"pk_k", "https://api.wirelog.ai", true, some "d0", some "s0", 0,
                none, none⟩ : ClientState) emptyLStore emptySStore).ls
          (identify true [] (.err 500 "down") ⟨"u1", none, none, none⟩
            (⟨"pk_k", "https://api.wirelog.ai", true, some "d0", some "s0", 0,
                none, none⟩ : ClientState) emptyLStore emptySStore).ss).1.user_id
        = some (trimS "u1")
    ∧ (identify true [] .netfail ⟨"u1", none, none, none⟩
        (⟨"pk_k", "https://api.wirelog.ai", true, some "d0", some "s0", 0,
            none, none⟩ : ClientState) emptyLStore emptySStore).result
        = .error (.post .network)
    ∧ (identify true [] .netfail ⟨"u1", none, none, none⟩
        (⟨"pk_k", "https://api.wirelog.ai", true, some "d0", some "s0", 0,
            none, none⟩ : ClientState) emptyLStore emptySStore).state.userId
        = some (trimS "u1") :=
  claim_C9_identify_no_rollback [] [] ⟨"u1", none, none, none⟩
    (⟨"pk_k", "https://api.wirelog.ai", true, some "d0", some "s0", 0,
        none, none⟩ : ClientState) emptyLStore emptySStore 500 "down" 5000 "s1"
    (by decide) rfl

/-- Decimal parse of a stored epoch-milliseconds stamp (core
`String.toNat?` gets stuck on byte positions in the kernel). -/
def parseNatS (s : String) : Option Nat :=
  if s.data ≠ [] ∧ s.data.all Char.isDigit then
    some (s.data.foldl (fun n c => n * 10 + (c.toNat - 48)) 0)
  else none

/-- Modelled from the spec: the persisted/shared session variant (spec §3
`session_id`, §4.1, §9 open question; also asserted by the repository's
tests for the session-storage keys `wl_sid` / `wl_slast`), which is absent
from `src/client.ts`: at construction read the session id from `wl_sid`
and its last-activity stamp from `wl_slast`; when a session id is present
and the recorded idle time is within `SESSION_TIMEOUT`, adopt it (so a
sibling SDK reading the same keys observes the same session id); otherwise
generate a fresh id and persist both keys. -/
def specSessionOnConstruct (now : Nat) (freshSession : String) (ss : SStore) :
    String × SStore :=
  let sid := match ssGet "wl_sid" ss with
    | some (.str s2) => if s2 = "" then none else some s2
    | _ => none
  let last := match ssGet "wl_slast" ss with
    | some (.str t) => parseNatS t
    | _ => none
  match sid, last with
  | some s2, some t =>
      if now - t ≤ SESSION_TIMEOUT then (s2, ss)
      else (freshSession,
        ssSet "wl_slast" (.str (toString now))
          (ssSet "wl_sid" (.str freshSession) ss))
  | _, _ => (freshSession,
      ssSet "wl_slast" (.str (toString now))
        (ssSet "wl_sid" (.str freshSession) ss))

/-- C5 fails on the code: at construction in a browser whose session
storage holds a live session (`wl_sid = "aabb..."`, last activity 5
seconds ago, well inside the 30-minute timeout), the constructor ignores
it and installs a freshly generated session id, and it persists nothing
under `wl_sid` (the stored value is still the sibling's); the spec-modelled
hydrating variant adopts the stored id and leaves storage unchanged.
(The repository's own tests assert the hydrating behavior.) -/
theorem claim_C5_session_not_hydrated :
    (construct true "pk_k" "https://api.wirelog.ai"
        "ffffffffffffffffffffffff" "eeeeeeeeeeeeeeeeeeeeeeee" 1000000 []
        emptyLStore
        (ssSet "wl_slast" (.str "995000")
          (ssSet "wl_sid" (.str "aabbccddeeff001122334455")
            emptySStore))).1.sessionId
      = some "eeeeeeeeeeeeeeeeeeeeeeee"
    ∧ ("eeeeeeeeeeeeeeeeeeeeeeee" : String) ≠ "aabbccddeeff001122334455"
    ∧ ssGet "wl_sid"
        (construct true "pk_k" "https://api.wirelog.ai"
          "ffffffffffffffffffffffff" "eeeeeeeeeeeeeeeeeeeeeeee" 1000000 []
          emptyLStore
          (ssSet "wl_slast" (.str "995000")
            (ssSet "wl_sid" (.str "aabbccddeeff001122334455")
              emptySStore))).2.2
      = some (.str "aabbccddeeff001122334455")
    ∧ specSessionOnConstruct 1000000 "eeeeeeeeeeeeeeeeeeeeeeee"
        (ssSet "wl_slast" (.str "995000")
          (ssSet "wl_sid" (.str "aabbccddeeff001122334455") emptySStore))
      = ("aabbccddeeff001122334455",
          ssSet "wl_slast" (.str "995000")
            (ssSet "wl_sid" (.str "aabbccddeeff001122334455") emptySStore)) := by
  refine ⟨?_, by decide, ?_, ?_⟩ <;> rfl

/-- C8 fails on the code: after construction the device id is adopted from
`wl_did` (non-empty, consistent with storage) — but when the sibling SDK
later clears `wl_did`, enrichment neither regenerates nor re-persists it:
`browserIdentity` never re-reads `wl_did` (only `wl_uid`), so the enriched
event still carries the stale in-memory device id while the shared
storage reads absent.  (The repository's own test "picks up device ID
changes from wirelog.js reset on next track" asserts the opposite.) -/
theorem claim_C8_device_id_not_reconciled :
    (construct true "pk_k" "https://api.wirelog.ai"
        "ffffffffffffffffffffffff" "eeeeeeeeeeeeeeeeeeeeeeee" 1000 []
        (lsSet "wl_did" "11223344556677889900aabb" emptyLStore)
        emptySStore).1.deviceId
      = some "11223344556677889900aabb"
    ∧ lsGet "wl_did"
        (lsRemoveExternal "wl_did"
          (construct true "pk_k" "https://api.wirelog.ai"
            "ffffffffffffffffffffffff" "eeeeeeeeeeeeeeeeeeeeeeee" 1000 []
            (lsSet "wl_did" "11223344556677889900aabb" emptyLStore)
            emptySStore).2.1)
      = none
    ∧ (enrichEvent true 2000 "dddddddddddddddddddddddd" "ins-1"
        "2026-01-01T00:00:00.000Z" ⟨"https://app.example.com/home", none, none⟩
        [] ⟨"click", none, none, none, none, none, none, none, none⟩
        (construct true "pk_k" "https://api.wirelog.ai"
          "ffffffffffffffffffffffff" "eeeeeeeeeeeeeeeeeeeeeeee" 1000 []
          (lsSet "wl_did" "11223344556677889900aabb" emptyLStore)
          emptySStore).1
        (lsRemoveExternal "wl_did"
          (construct true "pk_k" "https://api.wirelog.ai"
            "ffffffffffffffffffffffff" "eeeeeeeeeeeeeeeeeeeeeeee" 1000 []
            (lsSet "wl_did" "11223344556677889900aabb" emptyLStore)
            emptySStore).2.1)
        emptySStore).1.device_id
      = some "11223344556677889900aabb" := by
  refine ⟨?_, ?_, ?_⟩ <;> rfl

end WireLogTS
